import Mathlib

/-!
A verification development for the exam-prep bot repository
(`mcp-bearer-token/db.py` and `mcp-bearer-token/mcp_starter.py`).

The SQLite-backed store of `db.py` is embedded shallowly: each table is a
Lean value (a list of rows, or a finite map represented as a function into
`Option`), and each Python function becomes a pure Lean function on that
value.  Calendar dates, which the Python code carries as canonical ISO-8601
strings (`date.today().isoformat()`) and compares with string equality, are
modelled as day ordinals of type `Int`; `date.fromisoformat(today) -
date.resolution` (one day earlier) becomes `today - 1`.  Python's unbounded
`int` is `Int`.
-/

namespace DB

/-- A row of the `progress` table of `db.py`:
`(phone, subject)` is the primary key (held outside the record),
with columns `streak`, `last_date`, `correct`, `attempted`. -/
structure ProgressRecord where
  streak : Int
  last_date : Int
  correct : Int
  attempted : Int
deriving DecidableEq

/-- The `progress` table, keyed by its primary key `(phone, subject)`. -/
def ProgressStore := String → String → Option ProgressRecord

/-- The empty `progress` table. -/
def emptyProgress : ProgressStore := fun _ _ => none

/-- Embedding of `record_progress(phone, subject, correct)` from `db.py`
(lines 217-247).  The current date is passed explicitly as `today`.
The Python body selects the row for `(phone, subject)`; if present it
increments `attempted` (and `correct` when the answer was correct), keeps
`streak` when `last_date == today`, increments it when `last_date` is the
ISO string of one day earlier, and otherwise sets it to 1, then updates the
row with `last_date = today`; if absent it inserts
`(phone, subject, 1, today, correct ? 1 : 0, 1)`. -/
def record_progress (today : Int) (phone subject : String) (correct : Bool)
    (db : ProgressStore) : ProgressStore :=
  match db phone subject with
  | some r =>
      let att := r.attempted + 1
      let corr := if correct then r.correct + 1 else r.correct
      let streak :=
        if r.last_date = today then r.streak
        else if r.last_date = today - 1 then r.streak + 1
        else 1
      fun p s =>
        if p = phone ∧ s = subject then some ⟨streak, today, corr, att⟩ else db p s
  | none =>
      fun p s =>
        if p = phone ∧ s = subject then
          some ⟨1, today, if correct then 1 else 0, 1⟩
        else db p s

/-- The progress stores reachable from the empty table by any sequence of
`record_progress` calls, on any dates. -/
inductive Reachable : ProgressStore → Prop
  | empty : Reachable emptyProgress
  | step (today : Int) (phone subject : String) (correct : Bool) {db : ProgressStore} :
      Reachable db → Reachable (record_progress today phone subject correct db)

/-- The per-record invariant of the spec:
`0 ≤ correct ≤ attempted` and `streak ≥ 1`. -/
def RecordOK (r : ProgressRecord) : Prop :=
  0 ≤ r.correct ∧ r.correct ≤ r.attempted ∧ 0 ≤ r.attempted ∧ 1 ≤ r.streak

/-- Every record present in the store satisfies `RecordOK`. -/
def StoreOK (db : ProgressStore) : Prop :=
  ∀ p s r, db p s = some r → RecordOK r

end DB

namespace DB

/-- C1: `recordProgress` follows the specified streak algorithm exactly:
if no record exists for `(user, subject)` it creates one with `streak = 1`,
`attempted = 1`, `correct = 1` if the answer was correct else `0`, and
`last_activity_date = today`; if a record exists it increments `attempted`
(and `correct` when the answer was correct), leaves `streak` unchanged when
`last_activity_date` equals today, increments `streak` by one when it equals
exactly yesterday, resets `streak` to 1 in every other case (gap of two or
more days, or a future date), and always sets `last_activity_date` to
today. -/
theorem record_progress_follows_streak_algorithm
    (today : Int) (phone subject : String) (wasCorrect : Bool) (db : ProgressStore) :
    (db phone subject = none →
      record_progress today phone subject wasCorrect db phone subject =
        some ⟨1, today, if wasCorrect then 1 else 0, 1⟩) ∧
    (∀ r, db phone subject = some r →
      ∃ r', record_progress today phone subject wasCorrect db phone subject = some r' ∧
        r'.attempted = r.attempted + 1 ∧
        r'.correct = (if wasCorrect then r.correct + 1 else r.correct) ∧
        r'.last_date = today ∧
        (r.last_date = today → r'.streak = r.streak) ∧
        (r.last_date = today - 1 → r'.streak = r.streak + 1) ∧
        (r.last_date ≠ today → r.last_date ≠ today - 1 → r'.streak = 1)) := by
  constructor
  · intro hnone
    simp only [record_progress, hnone]
    simp
  · intro r hsome
    simp only [record_progress, hsome]
    refine ⟨⟨if r.last_date = today then r.streak
              else if r.last_date = today - 1 then r.streak + 1 else 1,
             today, if wasCorrect then r.correct + 1 else r.correct,
             r.attempted + 1⟩, by simp, rfl, rfl, rfl, ?_, ?_, ?_⟩
    · intro h
      simp [h]
    · intro h
      have hne : r.last_date ≠ today := by omega
      simp [h, hne]
    · intro h1 h2
      simp [h1, h2]

/-- Witness for C1 at concrete inputs: a first call on an empty store
creates the record `(streak 1, last_date 5, correct 1, attempted 1)`. -/
theorem record_progress_follows_streak_algorithm_witness :
    record_progress 5 "u" "Math" true emptyProgress "u" "Math" = some ⟨1, 5, 1, 1⟩ :=
  (record_progress_follows_streak_algorithm 5 "u" "Math" true emptyProgress).1 rfl

/-- C2: every store reachable from the empty store by `recordProgress` calls
satisfies the invariants `0 ≤ correct ≤ attempted` and `streak ≥ 1` for
every record it holds. -/
theorem reachable_progress_store_invariant {db : ProgressStore}
    (h : Reachable db) : StoreOK db := by
  induction h with
  | empty => intro p s r hr; exact absurd hr (by simp [emptyProgress])
  | step today phone subject correct hdb ih =>
      intro p s r hr
      unfold record_progress at hr
      rcases hcur : ‹ProgressStore› phone subject with _ | r₀
      all_goals rw [hcur] at hr
      · simp only at hr
        split at hr
        · rcases hr with ⟨rfl⟩
          rcases correct <;> exact ⟨by simp, by simp, by simp, by simp⟩
        · exact ih p s r hr
      · simp only at hr
        split at hr
        · rcases hr with ⟨rfl⟩
          have h₀ := ih phone subject r₀ hcur
          obtain ⟨hc0, hca, ha0, hs1⟩ := h₀
          refine ⟨?_, ?_, ?_, ?_⟩
          · rcases correct <;> simp <;> omega
          · rcases correct <;> simp <;> omega
          · simp; omega
          · by_cases h1 : r₀.last_date = today
            · simp [h1]; omega
            · by_cases h2 : r₀.last_date = today - 1
              · simp [h1, h2]; omega
              · simp [h1, h2]
        · exact ih p s r hr

/-- Witness for C2: the store after one concrete `record_progress` call is
reachable, so it satisfies the invariant. -/
theorem reachable_progress_store_invariant_witness :
    StoreOK (record_progress 3 "u" "Physics" false emptyProgress) :=
  reachable_progress_store_invariant
    (Reachable.step 3 "u" "Physics" false Reachable.empty)

end DB

namespace DB

/-- A row of the `notes` table of `db.py`. -/
structure Note where
  id : Nat
  subject : String
  topic : String
  note : String
deriving DecidableEq

/-- The two result shapes of `get_notes`: bare note strings when a topic
filter is applied, `(topic, note)` pairs otherwise. -/
inductive NotesResult
  | bare (notes : List String)
  | pairs (rows : List (String × String))
deriving DecidableEq

/-- Python truthiness of an optional string (`if topic:`): `None` and the
empty string are falsy. -/
def pyTruthy : Option String → Bool
  | none => false
  | some t => t ≠ ""

/-- Embedding of `get_notes(subject, topic=None)` from `db.py` (lines
189-200).  The Python code branches on `if topic:` (truthiness, not
presence): in the truthy branch it selects `note` rows with
`subject=? AND topic=?` and returns bare strings, otherwise it selects
`(topic, note)` rows with `subject=?` and returns pairs. -/
def get_notes (db : List Note) (subject : String) (topic : Option String) :
    NotesResult :=
  if pyTruthy topic then
    .bare ((db.filter fun n => n.subject = subject ∧ n.topic = topic.getD "").map
      Note.note)
  else
    .pairs ((db.filter fun n => n.subject = subject).map fun n => (n.topic, n.note))

end DB

namespace DB

/-- Counterexample to C3 as stated: when the supplied topic is the empty
string, Python's `if topic:` is false, so `get_notes` returns the
`(topic, note)`-pairs shape for the whole subject instead of the bare
strings matching `(subject, "")`. -/
theorem get_notes_empty_topic_counterexample :
    ¬ (get_notes [⟨1, "S", "T", "n"⟩] "S" (some "") =
        NotesResult.bare
          (([⟨1, "S", "T", "n"⟩].filter
              fun n => n.subject = "S" ∧ n.topic = "").map Note.note)) := by
  decide

/-- C3 (amended): `getNotes` returns two distinct shapes keyed by whether a
non-empty topic argument was supplied: for every subject, when a non-empty
topic is given it returns the bare note strings matching exactly that
`(subject, topic)`; when no topic — or the empty-string topic, which Python
truthiness treats the same as no topic — is given it returns the
`(topic, note)` pairs of all notes of the subject. -/
theorem get_notes_shapes (db : List Note) (subject t : String) :
    (t ≠ "" →
      get_notes db subject (some t) =
        NotesResult.bare
          ((db.filter fun n => n.subject = subject ∧ n.topic = t).map Note.note)) ∧
    get_notes db subject none =
      NotesResult.pairs
        ((db.filter fun n => n.subject = subject).map fun n => (n.topic, n.note)) ∧
    get_notes db subject (some "") =
      NotesResult.pairs
        ((db.filter fun n => n.subject = subject).map fun n => (n.topic, n.note)) := by
  refine ⟨fun ht => ?_, rfl, rfl⟩
  simp [get_notes, pyTruthy, ht]

/-- Witness for C3 (amended) at concrete inputs: a non-empty topic yields
the bare-strings shape. -/
theorem get_notes_shapes_witness :
    get_notes [⟨1, "S", "T", "n"⟩] "S" (some "T") =
      NotesResult.bare
        (([⟨1, "S", "T", "n"⟩].filter
            fun n => n.subject = "S" ∧ n.topic = "T").map Note.note) :=
  (get_notes_shapes [⟨1, "S", "T", "n"⟩] "S" "T").1 (by decide)

end DB

namespace DB

/-- A row of the `reminders` table of `db.py`: autoincrement `id`, then
`phone`, `message`, `remind_at`. -/
structure Reminder where
  id : Nat
  phone : String
  message : String
  remind_at : String
deriving DecidableEq

/-- The `reminders` table in insertion (rowid) order. -/
abbrev ReminderStore := List Reminder

/-- Embedding of `add_reminder(phone, message, remind_at)` from `db.py`
(lines 272-280): inserts a new row; the autoincrement id is one more than
the number of existing rows (no row is ever deleted). -/
def add_reminder (db : ReminderStore) (phone message remind_at : String) :
    ReminderStore :=
  db ++ [⟨db.length + 1, phone, message, remind_at⟩]

/-- Embedding of `get_reminders(phone)` from `db.py` (lines 283-294):
`SELECT id, message, remind_at FROM reminders WHERE phone=? ORDER BY
remind_at`.  SQLite orders TEXT by bytewise comparison of the UTF-8
encoding, which agrees with the code-point lexicographic order on strings;
the sort is modelled with `List.mergeSort`. -/
def get_reminders (db : ReminderStore) (phone : String) :
    List (Nat × String × String) :=
  (((db.filter fun r => r.phone = phone).mergeSort
      fun a b => a.remind_at ≤ b.remind_at).map
    fun r => (r.id, r.message, r.remind_at))

/-- A reminder store built by a sequence of `add_reminder` calls
(`(phone, message, remind_at)` triples) starting from the empty table. -/
def buildReminders (ops : List (String × String × String)) : ReminderStore :=
  ops.foldl (fun db op => add_reminder db op.1 op.2.1 op.2.2) []

end DB

namespace DB

/-- C6: for every user and every sequence of `addReminder` calls,
`getReminders(user)` returns exactly that user's reminders — a permutation
of the rows whose phone matches — sorted by `remind_at` in ascending order,
regardless of the order in which they were inserted. -/
theorem get_reminders_sorted_perm (ops : List (String × String × String))
    (phone : String) :
    (get_reminders (buildReminders ops) phone).Perm
        (((buildReminders ops).filter fun r => r.phone = phone).map
          fun r => (r.id, r.message, r.remind_at)) ∧
    (get_reminders (buildReminders ops) phone).Pairwise
        fun a b => a.2.2 ≤ b.2.2 := by
  constructor
  · exact List.Perm.map _ (List.mergeSort_perm _ _)
  · rw [get_reminders, List.pairwise_map]
    have h := @List.sorted_mergeSort Reminder
      (fun a b => a.remind_at ≤ b.remind_at)
      (fun a b c hab hbc => by
        simp only [decide_eq_true_eq] at *
        exact le_trans hab hbc)
      (fun a b => by
        simp only [Bool.or_eq_true, decide_eq_true_eq]
        exact le_total a.remind_at b.remind_at)
      ((buildReminders ops).filter fun r => r.phone = phone)
    exact h.imp fun hab => by simpa using hab

end DB

namespace DB

/-- A row of the `questions` table of `db.py`. -/
structure Question where
  id : Nat
  subject : String
  topic : String
  text : String
  options : List String
  answer : Int
  explanation : String
deriving DecidableEq

/-- The projection `SELECT id, question, options` returned by
`get_questions`: only id, question text and options — the `answer` and
`explanation` columns are not selected. -/
structure QuestionSummary where
  id : Nat
  text : String
  options : List String
deriving DecidableEq

/-- SQLite `LIMIT` semantics: a negative limit means no upper bound on the
number of rows returned; a non-negative limit keeps at most that many
rows. -/
def sqliteLimit (limit : Int) (l : List α) : List α :=
  if limit < 0 then l else l.take limit.toNat

/-- Embedding of `get_questions(subject, limit=5)` from `db.py` (lines
149-165): `SELECT id, question, options FROM questions WHERE subject=?
ORDER BY RANDOM() LIMIT ?`.  The random order is modelled by an arbitrary
`shuffle` function applied to the matching rows; theorems assume only that
it permutes its input. -/
def get_questions (db : List Question) (subject : String) (limit : Int)
    (shuffle : List Question → List Question) : List QuestionSummary :=
  (sqliteLimit limit (shuffle (db.filter fun q => q.subject = subject))).map
    fun q => ⟨q.id, q.text, q.options⟩

/-- The three rows seeded into the `questions` table by `init_db` in
`db.py` (lines 77-107); autoincrement ids 1-3. -/
def seedQuestions : List Question :=
  [⟨1, "Physics", "Units", "What is the SI unit of force?",
      ["Newton", "Joule", "Watt", "Pascal"], 0,
      "Force is measured in Newtons (N) in the SI system."⟩,
   ⟨2, "Chemistry", "Atomic Structure", "What is the charge of a proton?",
      ["+1", "0", "-1", "+2"], 0,
      "A proton carries a +1 elementary charge."⟩,
   ⟨3, "Mathematics", "Calculus", "Derivative of x^2 is?",
      ["x", "2x", "x^2", "2"], 1,
      "Using power rule d/dx(x^n) = n*x^(n-1), so derivative is 2x."⟩]

end DB

namespace DB

/-- Counterexample to C7 as stated over every limit: SQLite treats a
negative `LIMIT` as "no upper bound", so on the seeded store
`get_questions("Physics", -1)` returns one row, which is not "at most
limit" rows. -/
theorem get_questions_negative_limit_counterexample :
    ¬ (((get_questions seedQuestions "Physics" (-1) id).length : Int) ≤ -1) := by
  decide

/-- C7 (amended): for every subject and every non-negative limit,
`getQuestions(subject, limit)` returns at most `limit` question summaries,
each obtained from a question of the store belonging to the requested
subject and containing only its id, question text, and options — never the
answer index or explanation. -/
theorem get_questions_limit_and_subject (db : List Question) (subject : String)
    (limit : Int) (shuffle : List Question → List Question)
    (hperm : (shuffle (db.filter fun q => q.subject = subject)).Perm
      (db.filter fun q => q.subject = subject))
    (hlimit : 0 ≤ limit) :
    ((get_questions db subject limit shuffle).length : Int) ≤ limit ∧
    ∀ s ∈ get_questions db subject limit shuffle,
      ∃ q ∈ db, q.subject = subject ∧ s = ⟨q.id, q.text, q.options⟩ := by
  constructor
  · rw [get_questions, List.length_map, sqliteLimit, if_neg (by omega)]
    calc ((List.take limit.toNat _).length : Int)
        ≤ (limit.toNat : Int) := by
          exact_mod_cast le_of_eq_of_le (List.length_take _ _) (min_le_left _ _)
      _ = limit := by omega
  · intro s hs
    rw [get_questions] at hs
    obtain ⟨q, hq, rfl⟩ := List.mem_map.1 hs
    have hq₁ : q ∈ shuffle (db.filter fun q => q.subject = subject) := by
      rw [sqliteLimit] at hq
      split at hq
      · exact hq
      · exact List.mem_of_mem_take hq
    have hq₂ : q ∈ db.filter fun q => q.subject = subject := hperm.mem_iff.1 hq₁
    refine ⟨q, List.mem_of_mem_filter hq₂, ?_, rfl⟩
    simpa using List.of_mem_filter hq₂

/-- Witness for C7 (amended) at concrete inputs: the seeded store, subject
`Physics`, limit 2 and the identity shuffle. -/
theorem get_questions_limit_and_subject_witness :
    ((get_questions seedQuestions "Physics" 2 id).length : Int) ≤ 2 ∧
    ∀ s ∈ get_questions seedQuestions "Physics" 2 id,
      ∃ q ∈ seedQuestions, q.subject = "Physics" ∧ s = ⟨q.id, q.text, q.options⟩ :=
  get_questions_limit_and_subject seedQuestions "Physics" 2 id
    (List.Perm.refl _) (by decide)

end DB

namespace DB

/-- Embedding of `get_question(qid)` from `db.py` (lines 168-186):
`SELECT ... FROM questions WHERE id=?` returns the first matching row, or
`None`. -/
def get_question (db : List Question) (qid : Nat) : Option Question :=
  db.find? fun q => q.id = qid

/-- The result record of the answer-checking facade operation:
`{correct, correct_answer_index, explanation}`. -/
structure CheckResult where
  correct : Bool
  correct_answer : Int
  explanation : String
deriving DecidableEq

/-- Modelled from the spec: the facade operation `checkAnswer(questionId,
selectedIndex, user)` is not present under `src/`; the spec (section 4.5)
says it "looks up the question; if missing, returns a 'not found' result
with correct=false; otherwise computes correctness by index equality, calls
Progress Tracker to record the outcome, calls Text Assist Adapter to
rephrase the stored explanation, and returns {correct,
correct_answer_index, explanation}", with `correct_answer = -1` in the
missing case (section 8).  The question lookup is the source
`get_question`; the rephrasing outcome enters as the function `rephrased`;
the current date for the progress update is `today`.  The operation is a
total function — it raises no exception. -/
def check_answer (qdb : List Question) (progress : ProgressStore) (today : Int)
    (rephrased : String → String) (qid : Nat) (selected : Int) (user : String) :
    CheckResult × ProgressStore :=
  match get_question qdb qid with
  | none =>
      ({ correct := false, correct_answer := -1, explanation := "Question not found" },
       progress)
  | some q =>
      let isCorrect := selected = q.answer
      ({ correct := isCorrect, correct_answer := q.answer,
         explanation := rephrased q.explanation },
       record_progress today user q.subject isCorrect progress)

end DB

namespace DB

/-- C4: `checkAnswer` with a question id that does not exist returns a
"not found" result with `correct = false` and `correct_answer = -1`, does
not call the Progress Tracker (the progress store is returned unchanged),
and — being a total function — raises no exception. -/
theorem check_answer_missing_question (qdb : List Question)
    (progress : ProgressStore) (today : Int) (rephrased : String → String)
    (qid : Nat) (selected : Int) (user : String)
    (hmissing : get_question qdb qid = none) :
    check_answer qdb progress today rephrased qid selected user =
      ({ correct := false, correct_answer := -1,
         explanation := "Question not found" }, progress) := by
  simp only [check_answer, hmissing]

/-- Witness for C4 at concrete inputs: id 7 is absent from the seeded
questions, so the result is the "not found" record and the empty progress
store is unchanged. -/
theorem check_answer_missing_question_witness :
    check_answer seedQuestions emptyProgress 0 id 7 0 "u" =
      ({ correct := false, correct_answer := -1,
         explanation := "Question not found" }, emptyProgress) :=
  check_answer_missing_question seedQuestions emptyProgress 0 id 7 0 "u" (by decide)

end DB

namespace TextAssist

/-- A wall-clock date-time, used to model "the current time". -/
structure DateTime where
  year : Nat
  month : Nat
  day : Nat
  hour : Nat
  minute : Nat
  second : Nat
deriving DecidableEq

/-- The ASCII digit character of `n % 10`. -/
def digitChar (n : Nat) : Char := Char.ofNat (48 + n % 10)

/-- Two-digit zero-padded decimal rendering (for values below 100). -/
def pad2 (n : Nat) : List Char := [digitChar (n / 10), digitChar n]

/-- Four-digit zero-padded decimal rendering (for values below 10000). -/
def pad4 (n : Nat) : List Char :=
  [digitChar (n / 1000), digitChar (n / 100), digitChar (n / 10), digitChar n]

/-- The ISO-8601 rendering `YYYY-MM-DDTHH:MM:SS` of a date-time, as
produced by `datetime.isoformat()` on whole seconds. -/
def isoFormat (t : DateTime) : String :=
  ⟨pad4 t.year ++ '-' :: pad2 t.month ++ '-' :: pad2 t.day ++
    'T' :: pad2 t.hour ++ ':' :: pad2 t.minute ++ ':' :: pad2 t.second⟩

/-- Shape check for an ISO-8601 `YYYY-MM-DDTHH:MM:SS` timestamp: nineteen
characters, digits in the date and time positions, with the `-`, `T` and
`:` separators in their places. -/
def isIso8601Chars : List Char → Bool
  | [y1, y2, y3, y4, a1, m1, m2, a2, d1, d2, b1, h1, h2, c1, n1, n2, c2, s1, s2] =>
      y1.isDigit && y2.isDigit && y3.isDigit && y4.isDigit && a1 = '-' &&
      m1.isDigit && m2.isDigit && a2 = '-' && d1.isDigit && d2.isDigit &&
      b1 = 'T' && h1.isDigit && h2.isDigit && c1 = ':' && n1.isDigit &&
      n2.isDigit && c2 = ':' && s1.isDigit && s2.isDigit
  | _ => false

/-- A string is a valid ISO-8601 second-precision timestamp. -/
def isIso8601 (s : String) : Bool := isIso8601Chars s.data

/-- Modelled from the spec: the Text Assist operation `resolveTime(text)`
is not present under `src/`; the spec (section 4.4) says it "attempts
external call with a prompt embedding the current time; if that fails or is
unconfigured, falls back to a local best-effort natural-language date/time
parser; if that also fails, falls back to the current time.  Never raises
to the caller — always returns some timestamp string."  The outcome of the
external call and of the local parser enter as `Option` parameters (`none`
is failure or absent configuration); the current time is `now`.  The
operation is a total function — it raises no exception. -/
def resolve_time (externalResult : Option String) (parsedResult : Option String)
    (now : DateTime) : String :=
  match externalResult with
  | some t => t
  | none =>
      match parsedResult with
      | some t => t
      | none => isoFormat now

/-- Every `digitChar` output is an ASCII digit. -/
theorem digitChar_isDigit (n : Nat) : (digitChar n).isDigit = true := by
  have h : n % 10 < 10 := Nat.mod_lt _ (by decide)
  unfold digitChar
  interval_cases h : n % 10 <;> decide

/-- The ISO rendering of any date-time passes the ISO-8601 shape check. -/
theorem isIso8601_isoFormat (t : DateTime) : isIso8601 (isoFormat t) = true := by
  show isIso8601Chars _ = true
  simp only [isoFormat, pad4, pad2, List.cons_append, List.nil_append,
    isIso8601Chars]
  simp [digitChar_isDigit]

end TextAssist

namespace TextAssist

/-- C5: `resolveTime(text)` never raises (it is a total function into
strings) and always returns some timestamp: it returns the external call's
answer when that succeeds, falls back to the local natural-language parser
when the external call fails or is unconfigured, and falls back to the
current time when that also fails; in particular, with Text Assist
unconfigured and an unparsable input it still returns a valid ISO-8601
timestamp. -/
theorem resolve_time_fallback_chain (externalResult parsedResult : Option String)
    (now : DateTime) :
    (∀ t, externalResult = some t → resolve_time externalResult parsedResult now = t) ∧
    (∀ t, externalResult = none → parsedResult = some t →
      resolve_time externalResult parsedResult now = t) ∧
    (externalResult = none → parsedResult = none →
      resolve_time externalResult parsedResult now = isoFormat now ∧
      isIso8601 (resolve_time externalResult parsedResult now) = true) := by
  refine ⟨fun t ht => ?_, fun t he hp => ?_, fun he hp => ?_⟩
  · simp [resolve_time, ht]
  · simp [resolve_time, he, hp]
  · subst he; subst hp
    exact ⟨rfl, isIso8601_isoFormat now⟩

/-- Witness for C5 at concrete inputs: with the external call and the local
parser both failing, the current time `2025-01-24T09:30:00` is returned and
passes the ISO-8601 shape check. -/
theorem resolve_time_fallback_chain_witness :
    resolve_time none none ⟨2025, 1, 24, 9, 30, 0⟩ =
        isoFormat ⟨2025, 1, 24, 9, 30, 0⟩ ∧
      isIso8601 (resolve_time none none ⟨2025, 1, 24, 9, 30, 0⟩) = true :=
  (resolve_time_fallback_chain none none ⟨2025, 1, 24, 9, 30, 0⟩).2.2 rfl rfl

end TextAssist

namespace MCP

/-- An entry of `EXAM_DATABASE` in `mcp_starter.py` (lines 65-113):
dictionaries become association lists in declaration order. -/
structure Exam where
  name : String
  description : String
  syllabus : List (String × List String)
  important_dates : List (String × String)
  pattern : List (String × String)
  resources : List (String × List String)
deriving DecidableEq

/-- The `JEE` entry of `EXAM_DATABASE`. -/
def jeeExam : Exam :=
  { name := "Joint Entrance Examination (JEE)"
    description := "Engineering entrance exam for IITs, NITs, and other colleges"
    syllabus :=
      [("Physics", ["Mechanics", "Electrodynamics", "Thermodynamics", "Optics",
          "Modern Physics"]),
       ("Chemistry", ["Physical Chemistry", "Organic Chemistry",
          "Inorganic Chemistry"]),
       ("Mathematics", ["Algebra", "Calculus", "Coordinate Geometry",
          "Trigonometry"])]
    important_dates :=
      [("registration", "2023-12-15"), ("mains", "2024-01-24"),
       ("advanced", "2024-05-26")]
    pattern :=
      [("duration", "3 hours"), ("questions", "75 (25 per subject)"),
       ("marking", "+4 for correct, -1 for incorrect")]
    resources :=
      [("Physics", ["HC Verma", "Irodov", "NCERT"]),
       ("Chemistry", ["OP Tandon", "MS Chouhan", "NCERT"]),
       ("Mathematics", ["RD Sharma", "Arihant", "NCERT"])] }

/-- The `NEET` entry of `EXAM_DATABASE`. -/
def neetExam : Exam :=
  { name := "National Eligibility cum Entrance Test (NEET)"
    description := "Medical entrance exam for MBBS/BDS courses"
    syllabus :=
      [("Physics", ["Mechanics", "Optics", "Thermodynamics"]),
       ("Chemistry", ["Organic", "Inorganic", "Physical"]),
       ("Biology", ["Botany", "Zoology"])]
    important_dates := [("registration", "2024-03-01"), ("exam", "2024-05-05")]
    pattern :=
      [("duration", "3 hours 20 minutes"), ("questions", "180 (45 per subject)"),
       ("marking", "+4 for correct, -1 for incorrect")]
    resources :=
      [("Physics", ["NCERT", "DC Pandey"]),
       ("Chemistry", ["NCERT", "Morrison Boyd"]),
       ("Biology", ["NCERT", "Trueman"])] }

/-- Character-wise upper-casing, the shape of Python `str.upper()` on the
ASCII exam names used as `EXAM_DATABASE` keys. -/
def pyUpper (s : String) : String := ⟨s.data.map Char.toUpper⟩

/-- `EXAM_DATABASE.get(exam_name.upper())`: lookup by upper-cased name. -/
def examLookup (exam_name : String) : Option Exam :=
  if pyUpper exam_name = "JEE" then some jeeExam
  else if pyUpper exam_name = "NEET" then some neetExam
  else none

/-- The `Question` pydantic model of `mcp_starter.py` (lines 50-55). -/
structure BankQuestion where
  text : String
  options : List String
  correct_answer : Int
  explanation : String
  difficulty : String
deriving DecidableEq

/-- `QUESTION_BANK.get(examKey, {}).get(subject, [])` from `mcp_starter.py`
(lines 115-136): the bank has entries only for `JEE` Physics and `JEE`
Mathematics. -/
def question_bank (examKey subject : String) : List BankQuestion :=
  if examKey = "JEE" then
    if subject = "Physics" then
      [⟨"What is the SI unit of force?", ["Newton", "Joule", "Watt", "Pascal"], 0,
        "Force is measured in Newtons (N) in the SI system.", "easy"⟩]
    else if subject = "Mathematics" then
      [⟨"What is the derivative of x²?", ["x", "2x", "x³/3", "1"], 1,
        "The derivative of xⁿ is n*xⁿ⁻¹", "easy"⟩]
    else []
  else []

/-- The placeholder question built by `generate_quiz` when no stored
question matches the requested difficulty; its `difficulty` field carries
the requested difficulty. -/
def placeholderQuestion (difficulty : String) : BankQuestion :=
  ⟨"Sample question - this would be from real database",
   ["Option 1", "Option 2", "Option 3", "Option 4"], 0,
   "This is a sample explanation", difficulty⟩

/-- Python slicing `l[:n]` for an `int` bound: a non-negative `n` keeps the
first `n` elements; a negative `n` drops the last `-n`. -/
def pySlice (l : List α) (n : Int) : List α :=
  if 0 ≤ n then l.take n.toNat else l.take ((l.length : Int) + n).toNat

/-- The error raised via `McpError(ErrorData(code=INVALID_PARAMS, ...))`. -/
inductive McpFailure
  | invalidParams (message : String)
deriving DecidableEq

/-- Embedding of `generate_quiz(exam_name, subject, difficulty, count)` from
`mcp_starter.py` (lines 165-191): unknown exam and out-of-syllabus subject
raise `INVALID_PARAMS`; otherwise the bank questions for the subject are
filtered by difficulty; when none match, `min(count, 5)` placeholder copies
are returned (`range` of a non-positive bound is empty), else the first
`count` filtered questions. -/
def generate_quiz (exam_name subject difficulty : String) (count : Int) :
    Except McpFailure (List BankQuestion) :=
  match examLookup exam_name with
  | none => .error (.invalidParams "Exam not found")
  | some exam =>
      if (exam.syllabus.any fun p => p.1 = subject) = false then
        .error (.invalidParams "Subject not found in exam syllabus")
      else
        let filtered := (question_bank (pyUpper exam_name) subject).filter
          fun q => q.difficulty = difficulty
        if filtered = [] then
          .ok (List.replicate (min count 5).toNat (placeholderQuestion difficulty))
        else
          .ok (pySlice filtered count)

end MCP

namespace MCP

/-- One value of the `daily_schedule` dictionary of a study plan.  The two
float-formatted display strings of the `activities` list
(`hours_per_day*0.6` and `hours_per_day*0.4` hours) are not modelled —
they are binary floating-point renderings with no bearing on any claim;
revision days carry no `resources` key, modelled as `none`. -/
structure DayPlan where
  topic : String
  hours : Int
  resources : Option (List String)
deriving DecidableEq

/-- The `StudyPlan` pydantic model of `mcp_starter.py` (lines 57-62), with
dates as day ordinals: `daily_schedule` is a date-keyed dictionary held as
an association list in insertion order. -/
structure StudyPlan where
  exam : String
  start_date : Int
  end_date : Int
  daily_schedule : List (Int × DayPlan)
  revision_days : List Int
deriving DecidableEq

/-- Python truthiness-guarded membership `xs and topic in xs` for an
optional list (`None` and the empty list both make it false). -/
def pyOptContains (xs : Option (List String)) (x : String) : Bool :=
  match xs with
  | none => false
  | some l => l.contains x

/-- Python `s.split(":")[0]`. -/
def pySplitColonHead (s : String) : String := (s.splitOn ":").headD s

/-- `exam["resources"].get(key, ["General resources"])`. -/
def resourcesLookup (res : List (String × List String)) (key : String) :
    List String :=
  match res.find? fun p => p.1 = key with
  | some p => p.2
  | none => ["General resources"]

/-- Python dictionary assignment `d[k] = v` on a date-keyed dictionary:
overwrite the entry when the key is present, append it otherwise. -/
def dictSet (d : List (Int × DayPlan)) (k : Int) (v : DayPlan) :
    List (Int × DayPlan) :=
  if d.any fun p => p.1 = k then
    d.map fun p => if p.1 = k then (k, v) else p
  else d ++ [(k, v)]

/-- Embedding of `generate_study_plan(exam_name, start_date, end_date,
hours_per_day, weak_areas, strong_areas)` from `mcp_starter.py` (lines
195-270).  Dates are day ordinals, so `(end - start).days` is
`end_date - start_date`.  An unknown exam raises `INVALID_PARAMS`; a
non-positive day count raises `INVALID_PARAMS` ("End date must be after
start date"); otherwise one weighted topic is scheduled per day
(`topics[i % len(topics)]`), and the last up-to-seven days before the end
date are overwritten with revision entries. -/
def generate_study_plan (exam_name : String) (start_date end_date : Int)
    (hours_per_day : Int) (weak_areas strong_areas : Option (List String)) :
    Except McpFailure StudyPlan :=
  match examLookup exam_name with
  | none => .error (.invalidParams "Exam not found")
  | some exam =>
      let days := end_date - start_date
      if days ≤ 0 then
        .error (.invalidParams "End date must be after start date")
      else
        let topic_weights : List (String × Nat) :=
          exam.syllabus.flatMap fun p =>
            p.2.map fun topic =>
              (p.1 ++ ": " ++ topic,
               if pyOptContains weak_areas topic then 3
               else if pyOptContains strong_areas topic then 1
               else 2)
        let topics := topic_weights.map Prod.fst
        let schedule0 : List (Int × DayPlan) :=
          (List.range days.toNat).map fun i =>
            let topic := topics.getD (i % topics.length) ""
            (start_date + (i : Int),
             { topic := topic, hours := hours_per_day,
               resources :=
                 some (resourcesLookup exam.resources (pySplitColonHead topic)) })
        let revision_days :=
          (List.range' 1 ((min 8 days).toNat - 1)).map fun i => end_date - (i : Int)
        let daily_schedule := revision_days.foldl
          (fun d k =>
            dictSet d k { topic := "Revision", hours := hours_per_day,
                          resources := none })
          schedule0
        .ok { exam := exam_name, start_date := start_date, end_date := end_date,
              daily_schedule := daily_schedule, revision_days := revision_days }

/-- The sentinel record `daily_question` would return for an empty quiz:
`correct_answer = -1` and empty options. -/
def noQuestionsSentinel : BankQuestion :=
  ⟨"No questions available for this topic yet", [], -1, "", ""⟩

/-- Embedding of `daily_question(exam_name, topic)` from `mcp_starter.py`
(lines 333-345): forwards to `generate_quiz(exam_name, topic, "medium", 1)`
(so its errors propagate) and returns the first question, or the sentinel
when the returned list is empty. -/
def daily_question (exam_name topic : String) : Except McpFailure BankQuestion :=
  match generate_quiz exam_name topic "medium" 1 with
  | .error e => .error e
  | .ok qs =>
      .ok (match qs with
        | [] => noQuestionsSentinel
        | q :: _ => q)

end MCP

namespace MCP

/-- Every question stored in `QUESTION_BANK` has a non-negative
`correct_answer` index. -/
theorem question_bank_correct_answer_nonneg (examKey subject : String)
    (q : BankQuestion) (hq : q ∈ question_bank examKey subject) :
    0 ≤ q.correct_answer := by
  unfold question_bank at hq
  split at hq
  · split at hq
    · simp at hq; subst hq; decide
    · split at hq
      · simp at hq; subst hq; decide
      · simp at hq
  · simp at hq

/-- C8: the study-plan operation raises a caller-visible invalid-parameter
error whenever the date range is malformed: for every known exam and every
`start_date`/`end_date` pair where the end date is not strictly after the
start date, `generate_study_plan` raises `INVALID_PARAMS` ("End date must
be after start date") rather than returning a plan. -/
theorem generate_study_plan_rejects_bad_range (exam_name : String)
    (start_date end_date hours_per_day : Int)
    (weak_areas strong_areas : Option (List String)) (e : Exam)
    (hexam : examLookup exam_name = some e)
    (hrange : end_date ≤ start_date) :
    generate_study_plan exam_name start_date end_date hours_per_day
        weak_areas strong_areas =
      .error (.invalidParams "End date must be after start date") := by
  simp only [generate_study_plan, hexam]
  rw [if_pos (by omega)]

/-- Witness for C8 at concrete inputs: exam `JEE` with equal start and end
dates. -/
theorem generate_study_plan_rejects_bad_range_witness :
    generate_study_plan "JEE" 10 10 2 none none =
      .error (.invalidParams "End date must be after start date") :=
  generate_study_plan_rejects_bad_range "JEE" 10 10 2 none none jeeExam
    (by decide) (by decide)

/-- C9: for every known exam and subject in its syllabus, when the question
bank contains no question of the requested difficulty for that subject,
`generate_quiz` returns exactly `min(count, 5)` copies of the fixed
placeholder sample question; in particular it never returns more than 5
placeholder questions however large `count` is (`(min count 5).toNat ≤ 5`),
and returns an empty list when `count ≤ 0` (`(min count 5).toNat = 0`). -/
theorem generate_quiz_placeholder_copies (exam_name subject difficulty : String)
    (count : Int) (e : Exam)
    (hexam : examLookup exam_name = some e)
    (hsub : (e.syllabus.any fun p => p.1 = subject) = true)
    (hempty : ((question_bank (pyUpper exam_name) subject).filter
        fun q => q.difficulty = difficulty) = []) :
    generate_quiz exam_name subject difficulty count =
        .ok (List.replicate (min count 5).toNat (placeholderQuestion difficulty)) ∧
    (min count 5).toNat ≤ 5 ∧
    (count ≤ 0 → (min count 5).toNat = 0) := by
  refine ⟨?_, ?_, fun hc => ?_⟩
  · simp only [generate_quiz, hexam, hsub]
    simp [hempty]
  · have h := min_le_right count 5
    omega
  · have h := min_le_left count 5
    omega

/-- Witness for C9 at concrete inputs: the `JEE` bank holds no `medium`
Physics question, so a request for 7 questions yields 5 placeholder
copies. -/
theorem generate_quiz_placeholder_copies_witness :
    generate_quiz "JEE" "Physics" "medium" 7 =
        .ok (List.replicate (min (7 : Int) 5).toNat (placeholderQuestion "medium")) ∧
    ((min (7 : Int) 5).toNat ≤ 5) ∧
    ((7 : Int) ≤ 0 → (min (7 : Int) 5).toNat = 0) :=
  generate_quiz_placeholder_copies "JEE" "Physics" "medium" 7 jeeExam
    (by decide) (by decide) (by decide)

/-- C10: `daily_question` never returns its "No questions available for
this topic yet" sentinel record (`correct_answer = -1`): whenever
`generate_quiz(exam, topic, "medium", 1)` returns without raising, it
returns a non-empty list (a real or placeholder question), so the sentinel
branch in `daily_question` is unreachable. -/
theorem daily_question_never_sentinel (exam_name topic : String) :
    (∀ l, generate_quiz exam_name topic "medium" 1 = .ok l → l ≠ []) ∧
    (∀ q, daily_question exam_name topic = .ok q → q ≠ noQuestionsSentinel) := by
  have hok : ∀ l, generate_quiz exam_name topic "medium" 1 = .ok l →
      l ≠ [] ∧ ∀ q ∈ l, 0 ≤ q.correct_answer := by
    intro l hl
    unfold generate_quiz at hl
    cases hE : examLookup exam_name with
    | none => rw [hE] at hl; exact absurd hl (by simp)
    | some e =>
        rw [hE] at hl
        simp only at hl
        split at hl
        · exact absurd hl (by simp)
        · split at hl
          · rcases hl with ⟨rfl⟩
            refine ⟨by decide, ?_⟩
            intro q hq
            rw [List.eq_of_mem_replicate hq]
            decide
          · next hne =>
            rcases hl with ⟨rfl⟩
            constructor
            · rcases hcase :
                (question_bank (pyUpper exam_name) topic).filter
                  (fun q => q.difficulty = "medium") with _ | ⟨a, rest⟩
              · exact absurd hcase hne
              · rw [pySlice, if_pos (by decide), hcase]
                simp
            · intro q hq
              have hq₂ : q ∈ (question_bank (pyUpper exam_name) topic).filter
                  fun q => q.difficulty = "medium" := by
                rw [pySlice] at hq
                split at hq
                · exact List.mem_of_mem_take hq
                · exact List.mem_of_mem_take hq
              exact question_bank_correct_answer_nonneg _ _ q
                (List.mem_of_mem_filter hq₂)
  refine ⟨fun l hl => (hok l hl).1, fun q hq => ?_⟩
  unfold daily_question at hq
  cases hG : generate_quiz exam_name topic "medium" 1 with
  | error e => rw [hG] at hq; exact absurd hq (by simp)
  | ok qs =>
      rw [hG] at hq
      obtain ⟨hne, hmem⟩ := hok qs hG
      cases qs with
      | nil => exact absurd rfl hne
      | cons a rest =>
          simp only [Except.ok.injEq] at hq
          subst hq
          have h0 := hmem a (by simp)
          intro hcontra
          rw [hcontra] at h0
          exact absurd h0 (by decide)

/-- Witness for C10 at concrete inputs: `daily_question("JEE", "Physics")`
returns the medium placeholder question, which the theorem shows is not the
sentinel. -/
theorem daily_question_never_sentinel_witness :
    daily_question "JEE" "Physics" = .ok (placeholderQuestion "medium") ∧
    placeholderQuestion "medium" ≠ noQuestionsSentinel :=
  ⟨rfl,
   (daily_question_never_sentinel "JEE" "Physics").2 (placeholderQuestion "medium")
     rfl⟩

end MCP
